import Mathlib

/-!
Shallow embedding of `src/function_holder.cpp` (namespace `fn_base`):
a family of callable type-erasure wrappers and a scoped-exit guard.

Callables are modelled semantically by their effect on an abstract program
state `σ`:
* a plain zero-argument side-effecting callable is a state transformer `σ → σ`;
* a callable that may raise a failure is `σ → Except ε σ`;
* a callable that returns a value is `σ → σ × ρ` (new state and result);
* a callable taking an argument list is curried over a tuple `α` of arguments.

Each C++ class stores its callable by value, so the Lean structures hold the
callable's semantic function as a field, parameterised by the callable's
semantic type `κ` (mirroring the template parameter `F`).  The member
functions of each class are translated one by one below, with the source
lines they come from.
-/

namespace FnBase

/-- Instrumentation used to count invocations: wrap a state transformer so
that each call also bumps an invocation counter carried in the state. -/
def instr {τ : Type} (f : τ → τ) : τ × Nat → τ × Nat :=
  fun p => (f p.1, p.2 + 1)

/-- Two-counter instrumentation, first counter: each call of `instrFst f`
performs `f` and bumps the first of two counters. -/
def instrFst {τ : Type} (f : τ → τ) : τ × Nat × Nat → τ × Nat × Nat :=
  fun p => (f p.1, p.2.1 + 1, p.2.2)

/-- Two-counter instrumentation, second counter: each call of `instrSnd g`
performs `g` and bumps the second of two counters. -/
def instrSnd {τ : Type} (g : τ → τ) : τ × Nat × Nat → τ × Nat × Nat :=
  fun p => (g p.1, p.2.1, p.2.2 + 1)

/-- `fn_base::generic_guard<F>` (lines 13-56): owns one callable member
`m_fn : F` by value. -/
structure generic_guard (κ : Type) where
  m_fn : κ

namespace generic_guard

/-- Constructor (lines 29-32): binds the action `fn` into `m_fn`. -/
def construct {κ : Type} (fn : κ) : generic_guard κ :=
  ⟨fn⟩

/-- Destructor (lines 37-40): runs `m_fn();` unconditionally. -/
def destruct {σ : Type} (g : generic_guard (σ → σ)) (s : σ) : σ :=
  g.m_fn s

/-- Copy constructor (line 43, `= default`): member-wise copy of `m_fn`. -/
def copyConstruct {κ : Type} (src : generic_guard κ) : generic_guard κ :=
  ⟨src.m_fn⟩

/-- Move constructor (line 46, `= default`): member-wise move of `m_fn`.
`mv` is the moved-from map of the stored callable type `F` (what a value of
`F` becomes after being moved from; for a trivially copyable `F` such as a
function pointer or a lambda capturing a pointer by value, `mv = id`).
Returns the pair (moved-to guard, source guard after the move).  The class
has no disarm flag: the source guard still holds an `m_fn` and its
destructor still runs it. -/
def moveConstruct {κ : Type} (src : generic_guard κ) (mv : κ → κ) :
    generic_guard κ × generic_guard κ :=
  (⟨src.m_fn⟩, ⟨mv src.m_fn⟩)

/-- Copy assignment (line 49, `= default`): member-wise copy assignment of
`m_fn`; the target's previous action value is overwritten, it is never
called as a callable. -/
def copyAssign {κ : Type} (tgt src : generic_guard κ) : generic_guard κ :=
  ⟨src.m_fn⟩

/-- Move assignment (line 52, `= default`): member-wise move assignment of
`m_fn`; returns (target after assignment, source after being moved from). -/
def moveAssign {κ : Type} (tgt src : generic_guard κ) (mv : κ → κ) :
    generic_guard κ × generic_guard κ :=
  (⟨src.m_fn⟩, ⟨mv src.m_fn⟩)

end generic_guard

/-- C++ scope semantics for `{ generic_guard<F> guard(g); body }`: the local
guard is destroyed on every exit path — after `body` on a normal exit, and
during stack unwinding when `body` exits by propagating a failure — and its
destructor (lines 37-40) runs the action once. -/
def runScope {σ : Type} (g : σ → σ) (body : σ → Except σ σ) (s : σ) :
    Except σ σ :=
  match body s with
  | .ok s2 => .ok (generic_guard.destruct (generic_guard.construct g) s2)
  | .error s2 => .error (generic_guard.destruct (generic_guard.construct g) s2)

/-- C++ scope semantics for
`{ generic_guard<F> g1(g); generic_guard<F> g2(std::move(g1)); }` with a
trivially copyable action type `F` (so the moved-from `m_fn` is unchanged,
`mv`): locals are destroyed in reverse construction order, `g2` first and
then the moved-from `g1`, each running its own destructor (lines 37-40). -/
def runScopeMove {σ : Type} (g : σ → σ) (mv : (σ → σ) → (σ → σ)) (s : σ) : σ :=
  let p := generic_guard.moveConstruct (generic_guard.construct g) mv
  generic_guard.destruct p.2 (generic_guard.destruct p.1 s)

/-- An object of a dynamic type deriving from a polymorphic base `D`
(such as `fn_base::functor_extension`, lines 77-85, whose single capability
is a virtual nullary `operator()`): the `D`-subobject state `dState : δ`
together with the final overrider installed in the virtual call slot
`vcall : ι` (the slot's type `ι` is the semantic type of `D`'s virtual
call signature).  Upcasting to `D&`/`D*` does not change the object, so a
virtual call through the base reads the same slot. -/
structure DObject (ι : Type) (δ : Type) where
  dState : δ
  vcall : ι

namespace DBase

/-- Construction of a plain `D` object: `D`'s own constructor builds the
base state `d`, and `D`'s own (possibly no-op or default) implementation
`dImpl` sits in the virtual slot. -/
def construct {ι δ : Type} (dImpl : ι) (d : δ) : DObject ι δ :=
  ⟨d, dImpl⟩

end DBase

/-- Upcast of a derived object to its base `D` (`D&`, `D*`, or an owning
pointer to `D`): the object, and in particular its virtual slot, is
unchanged — only the static type changes. -/
def upcastD {ι δ : Type} (o : DObject ι δ) : DObject ι δ :=
  o

/-- A virtual call through a `D` handle with no arguments
(`(*handle)()`): dynamic dispatch reads the final overrider from the
object's virtual slot and runs it. -/
def invokeThroughD {σ δ : Type} (o : DObject (σ → σ) δ) (s : σ) : σ :=
  o.vcall s

/-- A virtual call through a `D` handle with no arguments, for a slot whose
body may raise a failure: dispatch reads and runs the final overrider. -/
def invokeThroughDE {σ ε δ : Type} (o : DObject (σ → Except ε σ) δ) (s : σ) :
    Except ε σ :=
  o.vcall s

/-- A virtual call through a `D` handle with an argument tuple `a`
(`(*handle)(a...)`): dispatch reads the final overrider and runs it on the
arguments. -/
def invokeThroughDArgs {α σ δ : Type} (o : DObject (α → σ → σ) δ) (a : α)
    (s : σ) : σ :=
  o.vcall a s

/-- Variant of `invokeThroughDArgs` for a slot whose body may raise. -/
def invokeThroughDArgsE {α σ ε δ : Type} (o : DObject (α → σ → Except ε σ) δ)
    (a : α) (s : σ) : Except ε σ :=
  o.vcall a s

namespace generic_functor_poly

/-- Primary template `fn_base::generic_functor<F, D, void> : public D`
(lines 95-134), constructor (lines 103-108): forwards `args ...` to `D`'s
constructor (abstracted as the already-built base subobject `base`) and
stores `fn` in `m_func`; the object's dynamic type overrides the virtual
call slot (lines 112-115) with `m_func();`. -/
def construct {σ δ : Type} (fn : σ → σ) (base : DObject (σ → σ) δ) :
    DObject (σ → σ) δ :=
  { dState := base.dState, vcall := fun s => fn s }

/-- `construct` for a stored callable that may raise: the override body
`m_func();` (lines 112-115) is the bare call, with no handler around it. -/
def constructE {σ ε δ : Type} (fn : σ → Except ε σ)
    (base : DObject (σ → Except ε σ) δ) : DObject (σ → Except ε σ) δ :=
  { dState := base.dState, vcall := fun s => fn s }

/-- `construct` for a stored callable that returns a value: the override
`void operator()() override { m_func(); }` (lines 112-115) is a `void`
function evaluating `m_func()` as an expression statement, so the
callable's result is discarded and only its state effect remains. -/
def constructR {σ ρ δ : Type} (fn : σ → σ × ρ) (base : DObject (σ → σ) δ) :
    DObject (σ → σ) δ :=
  { dState := base.dState, vcall := fun s => (fn s).1 }

end generic_functor_poly

/-- Flat specialization
`fn_base::generic_functor<F, D, enable_if<!is_polymorphic<D>>::type>`
(lines 144-181): no base class, owns only `m_func : F` by value. -/
structure generic_functor_flat (κ : Type) where
  m_func : κ

namespace generic_functor_flat

/-- Constructor (lines 152-155): stores `fn` in `m_func`. -/
def construct {κ : Type} (fn : κ) : generic_functor_flat κ :=
  ⟨fn⟩

/-- `void operator()()` (lines 159-162): runs `m_func();` — the bare call,
non-virtual, with no handler around it. -/
def call {σ : Type} (w : generic_functor_flat (σ → σ)) (s : σ) : σ :=
  w.m_func s

/-- `operator()` (lines 159-162) for a stored callable that may raise:
the failure leaves the call unhandled. -/
def callE {σ ε : Type} (w : generic_functor_flat (σ → Except ε σ)) (s : σ) :
    Except ε σ :=
  w.m_func s

/-- `operator()` (lines 159-162) for a stored callable that returns a
value: the `void` return type of the operator discards the result, keeping
only the callable's state effect. -/
def callR {σ ρ : Type} (w : generic_functor_flat (σ → σ × ρ)) (s : σ) : σ :=
  (w.m_func s).1

/-- Copy constructor (line 165, `= default`): member-wise copy of
`m_func` — it copies the callable value, it does not call it. -/
def copyConstruct {κ : Type} (src : generic_functor_flat κ) :
    generic_functor_flat κ :=
  ⟨src.m_func⟩

/-- Move constructor (line 168, `= default`): member-wise move of `m_func`
into the new wrapper (the moved-to wrapper is returned). -/
def moveConstruct {κ : Type} (src : generic_functor_flat κ) :
    generic_functor_flat κ :=
  ⟨src.m_func⟩

/-- Copy assignment (line 171, `= default`): member-wise copy assignment
of `m_func` into the target. -/
def copyAssign {κ : Type} (tgt src : generic_functor_flat κ) :
    generic_functor_flat κ :=
  ⟨src.m_func⟩

/-- Move assignment (line 174, `= default`): member-wise move assignment
of `m_func` into the target (the target after assignment is returned). -/
def moveAssign {κ : Type} (tgt src : generic_functor_flat κ) :
    generic_functor_flat κ :=
  ⟨src.m_func⟩

end generic_functor_flat

namespace variadic_functor

/-- `fn_base::variadic_functor<F, D, Args...> : public D` (lines 192-235),
constructor (lines 201-206): forwards `args ...` to `D`'s constructor
(abstracted as the built base subobject `base`) and stores `fn`; the
object's dynamic type overrides the virtual slot (lines 213-216) with
`m_func(args...);`, passing the call arguments through positionally. -/
def construct {α σ δ : Type} (fn : α → σ → σ) (base : DObject (α → σ → σ) δ) :
    DObject (α → σ → σ) δ :=
  { dState := base.dState, vcall := fun a s => fn a s }

/-- `construct` for a stored callable that may raise: the override body
`m_func(args...);` (lines 213-216) is the bare call, with no handler. -/
def constructE {α σ ε δ : Type} (fn : α → σ → Except ε σ)
    (base : DObject (α → σ → Except ε σ) δ) : DObject (α → σ → Except ε σ) δ :=
  { dState := base.dState, vcall := fun a s => fn a s }

/-- `construct` for a stored callable that returns a value: the override
(lines 213-216) is a `void` function, so the result of `m_func(args...)`
is discarded and only its state effect remains. -/
def constructR {α σ ρ δ : Type} (fn : α → σ → σ × ρ)
    (base : DObject (α → σ → σ) δ) : DObject (α → σ → σ) δ :=
  { dState := base.dState, vcall := fun a s => (fn a s).1 }

end variadic_functor

/-- The two mutually exclusive implementation strategies of
`generic_functor<F, D>`. -/
inductive Impl where
  | inherited
  | flat
deriving DecidableEq

/-- A C++ type as far as the dispatch predicate is concerned: all that
`std::is_polymorphic` inspects is whether the type has a virtual member. -/
structure CppType where
  isPolymorphic : Bool
deriving DecidableEq

/-- `std::enable_if<c>::type`: the nested `type` member exists (and is
`void`) exactly when the condition holds; otherwise substitution fails. -/
def enable_if (c : Bool) : Option Unit :=
  if c then some () else none

/-- Template resolution of `generic_functor<F, D>` (the third template
argument defaults to `void`, line 95): the partial specialization
(lines 144-146) is chosen exactly when its guard
`enable_if<!is_polymorphic<D>>::type` substitutes successfully to `void`;
when substitution fails the primary template (lines 95-97), which derives
from `D`, is chosen.  The guard mentions only `D`, never `F`, and the
resolution consumes no runtime state. -/
def generic_functor_resolve (F D : CppType) : Impl :=
  match enable_if (!D.isPolymorphic) with
  | some _ => Impl.flat
  | none => Impl.inherited

/-- Claim C2: `generic_functor<F, D>` resolves to the inheritance-based
specialization exactly when `D` is polymorphic and to the flat
specialization otherwise, and the selection is the same for every `F`. -/
theorem c2_dispatch_resolution (F F2 D : CppType) :
    (generic_functor_resolve F D = Impl.inherited ↔ D.isPolymorphic = true) ∧
    generic_functor_resolve F D = generic_functor_resolve F2 D := by
  cases hD : D.isPolymorphic <;>
    simp [generic_functor_resolve, enable_if, hD]

/-- Claim C3: invoking the flat `generic_functor` built from a callable
`f` performs exactly `f`'s effect, and the stored callable runs exactly
once per invocation (the invocation counter in the state advances by
exactly one). -/
theorem c3_flat_invoke_once {τ : Type} (f : τ → τ) (t : τ) (k : Nat) :
    generic_functor_flat.call (generic_functor_flat.construct (instr f)) (t, k)
      = (f t, k + 1) :=
  rfl

/-- Claim C4: destruction of a `generic_guard` constructed from action `g`
performs `g` unconditionally, and with an instrumented action the
invocation counter advances by exactly one — the destructor has no
condition that could skip or repeat the call. -/
theorem c4_guard_destruct_once {σ τ : Type} (g : σ → σ) (s : σ) (f : τ → τ)
    (t : τ) (k : Nat) :
    generic_guard.destruct (generic_guard.construct g) s = g s ∧
    generic_guard.destruct (generic_guard.construct (instr f)) (t, k)
      = (f t, k + 1) :=
  ⟨rfl, rfl⟩

/-- Claim C5: a `variadic_functor` built from `f` over a base `D`, upcast
to `D` and invoked through `D`'s virtual interface with an argument tuple
`a`, has exactly the effect of calling `f a` directly, the arguments
passed through positionally. -/
theorem c5_variadic_invoke {α σ δ : Type} (f : α → σ → σ)
    (base : DObject (α → σ → σ) δ) (a : α) (s : σ) :
    invokeThroughDArgs (upcastD (variadic_functor.construct f base)) a s
      = f a s :=
  rfl

/-- Claim C6: a polymorphic `generic_functor` invoked through a `D` handle
dispatches to its stored callable — the result is `f s` for every base
implementation `dImpl`, so `D`'s own default or no-op body is never
reached — and two wrappers over the same base with distinct closures each
dispatch to their own closure. -/
theorem c6_poly_dispatch {σ δ : Type} (dImpl : σ → σ) (d d2 : δ)
    (f g : σ → σ) (s : σ) :
    invokeThroughD
        (upcastD (generic_functor_poly.construct f (DBase.construct dImpl d)))
        s = f s ∧
    invokeThroughD
        (upcastD (generic_functor_poly.construct g (DBase.construct dImpl d2)))
        s = g s :=
  ⟨rfl, rfl⟩

/-- Claim C7: for all three wrappers, invoking with a stored callable that
may fail yields exactly the callable's own outcome — in particular a
failure `e` surfaces to the caller unchanged, with no translation, retry
or suppression layer in between. -/
theorem c7_failure_propagation {σ ε α δ : Type} (f : σ → Except ε σ)
    (fv : α → σ → Except ε σ) (base : DObject (σ → Except ε σ) δ)
    (baseV : DObject (α → σ → Except ε σ) δ) (a : α) (s : σ) (e : ε) :
    generic_functor_flat.callE (generic_functor_flat.construct f) s = f s ∧
    invokeThroughDE (upcastD (generic_functor_poly.constructE f base)) s
      = f s ∧
    invokeThroughDArgsE (upcastD (variadic_functor.constructE fv baseV)) a s
      = fv a s ∧
    generic_functor_flat.callE
        (generic_functor_flat.construct (fun _ : σ => Except.error e)) s
      = Except.error e :=
  ⟨rfl, rfl, rfl, rfl⟩

/-- Claim C8: with an invocation-counting callable stored in the flat
`generic_functor`, a sequence of copy construction, move construction,
copy assignment and move assignment followed by three invocations leaves
the counter advanced by exactly three — the copy and move members never
invoke the stored callable. -/
theorem c8_flat_copy_move_no_invoke {τ : Type} (f : τ → τ) (t : τ) (k : Nat) :
    (let w1 := generic_functor_flat.construct (instr f)
     let w2 := generic_functor_flat.copyConstruct w1
     let w3 := generic_functor_flat.moveConstruct w2
     let w4 := generic_functor_flat.copyAssign w1 w3
     let w5 := generic_functor_flat.moveAssign w4 w3
     generic_functor_flat.call w5
        (generic_functor_flat.call w5 (generic_functor_flat.call w5 (t, k))))
      = (f (f (f t)), k + 3) :=
  rfl

/-- Claim C9: each of the three wrappers' invoke operations, applied to a
stored callable that produces a value, keeps only the callable's state
effect: the produced value is discarded and never observable through the
wrapper. -/
theorem c9_result_discarded {σ ρ α δ : Type} (f : σ → σ × ρ)
    (fv : α → σ → σ × ρ) (base : DObject (σ → σ) δ)
    (baseV : DObject (α → σ → σ) δ) (a : α) (s : σ) :
    generic_functor_flat.callR (generic_functor_flat.construct f) s
      = (f s).1 ∧
    invokeThroughD (upcastD (generic_functor_poly.constructR f base)) s
      = (f s).1 ∧
    invokeThroughDArgs (upcastD (variadic_functor.constructR fv baseV)) a s
      = (fv a s).1 :=
  ⟨rfl, rfl, rfl⟩

/-- Claim C10: assigning (by copy or by move) a guard holding action `g`
onto a guard holding action `f` replaces the target's action without
invoking it: with `f` and `g` instrumented on separate counters, the
target's later destruction performs `g` exactly once (second counter +1)
and never performs the replaced `f` (first counter unchanged), for every
`f`. -/
theorem c10_assign_replaces_without_invoking {τ : Type} (f g : τ → τ) (t : τ)
    (a b : Nat) :
    generic_guard.destruct
        (generic_guard.copyAssign (generic_guard.construct (instrFst f))
          (generic_guard.construct (instrSnd g))) (t, a, b)
      = (g t, a, b + 1) ∧
    generic_guard.destruct
        ((generic_guard.moveAssign (generic_guard.construct (instrFst f))
          (generic_guard.construct (instrSnd g)) id)).1 (t, a, b)
      = (g t, a, b + 1) :=
  ⟨rfl, rfl⟩

/-- Claim C1, counterexample: take the trivially copyable action
`fun n => n + 1` on a counter starting at `0` (its moved-from state is
unchanged, `mv = id`, as for a function pointer or a lambda capturing a
pointer by value).  In the scope that constructs a guard and then
move-constructs a second guard from it, the claim says only the moved-to
guard invokes, so the counter would end at `1`; the code's defaulted move
constructor leaves the moved-from guard armed, both destructors run the
action, and the counter ends at `2`. -/
theorem c1_moved_from_counterexample :
    runScopeMove (fun n : Nat => n + 1) id 0 = 2 ∧ (2 : Nat) ≠ 1 :=
  ⟨rfl, by decide⟩

/-- Claim C1, amended: each guard instance invokes its own stored action
exactly once at its destruction, on every exit path of the owning scope
(normal return and failure-propagation unwind alike, counter +1 in both
branches); after a move construction the moved-to guard runs the original
action, and the moved-from guard is not disarmed — its destructor still
runs its moved-from action `mv (instr fn)`. -/
theorem c1_guard_exit_paths {τ : Type} (fn : τ → τ)
    (mv : (τ × Nat → τ × Nat) → (τ × Nat → τ × Nat))
    (body : τ × Nat → Except (τ × Nat) (τ × Nat)) (s s0 : τ × Nat) :
    (runScope (instr fn) body s =
      match body s with
      | .ok r => .ok (fn r.1, r.2 + 1)
      | .error r => .error (fn r.1, r.2 + 1)) ∧
    generic_guard.destruct
        ((generic_guard.construct (instr fn)).moveConstruct mv).1 s0
      = (fn s0.1, s0.2 + 1) ∧
    generic_guard.destruct
        ((generic_guard.construct (instr fn)).moveConstruct mv).2 s0
      = mv (instr fn) s0 := by
  refine ⟨?_, rfl, rfl⟩
  cases h : body s <;>
    simp [runScope, generic_guard.destruct, generic_guard.construct, instr, h]

end FnBase
